import Mathlib

/-!
Verification of the thunderdome-planning-poker specification against its code.

Part 1 models the real-time session hub described in the spec (data model
section 3, component design section 4, concurrency model section 5).  The hub,
session worker and connection code are not present under `src/`, so these
definitions are modelled from the spec's words; each such definition says so
in its doc comment.

Part 2 shallowly embeds the HTTP handlers that are present under `src/`
(`src/api/auth.go`, `src/api/storyboard/storyboard.go`, `src/unnamed/part_000`)
as pure functions from the request data and the outcomes of external
collaborator calls (database, validator, cookie codec) to the ordered trace of
observable effects the handler performs.
-/

namespace Thunderdome

/-! ## Part 1: the session hub, modelled from the spec -/

/-- Modelled from the spec: participant roles (facilitator/voter/spectator). -/
inductive Role
  | facilitator
  | voter
  | spectator
deriving DecidableEq

/-- Modelled from the spec: a Participant is one identity's membership within a
Session (identity, display name, role, presence, current vote). -/
structure Participant where
  identity : String
  displayName : String
  role : Role
  connected : Bool
  vote : Option String
deriving DecidableEq

/-- Modelled from the spec: WorkItem status (pending/active/voted/finalized). -/
inductive WStatus
  | pending
  | active
  | voted
  | finalized
deriving DecidableEq

/-- Modelled from the spec: a WorkItem (story/plan) with id, status, reveal
flag, recorded votes and final point value. -/
structure WorkItem where
  id : String
  status : WStatus
  revealed : Bool
  votes : List (String × String)
  points : Option String
deriving DecidableEq

/-- Modelled from the spec: a Session owns the work items, the participant
roster, the leader identity and the autoFinishVoting flag. -/
structure Session where
  workItems : List WorkItem
  participants : List Participant
  leader : String
  autoFinish : Bool
deriving DecidableEq

/-- Modelled from the spec: the typed error taxonomy of section 7. -/
inductive SessionError
  | EINVALID
  | EUNAUTHORIZED
  | EINVALID_STATE
  | ENOT_FOUND
deriving DecidableEq

/-- Modelled from the spec: outbound events describing state deltas, plus the
private-only snapshot and error notices. -/
inductive Event
  | participantJoined (identity : String)
  | participantLeft (identity : String)
  | voteCast (identity : String)
  | votesRevealed (votes : List (String × String))
  | workItemActivated (id : String)
  | planFinalized (id : String) (points : String)
  | leaderChanged (identity : String)
  | snapshot (s : Session)
  | errorNotice (e : SessionError)
deriving DecidableEq

/-- Modelled from the spec: the domain commands of section 4.2. -/
inductive Command
  | join (identity displayName : String)
  | leave (identity : String)
  | vote (identity value : String)
  | reveal (identity : String)
  | activateWorkItem (identity workItemID : String)
  | finalizePoints (identity points : String)
  | changeLeader (identity newLeaderIdentity : String)
deriving DecidableEq

def Session.findParticipant (s : Session) (identity : String) : Option Participant :=
  s.participants.find? (fun p => p.identity == identity)

def Session.activeItem (s : Session) : Option WorkItem :=
  s.workItems.find? (fun w => w.status == WStatus.active)

def Session.isFacilitator (s : Session) (identity : String) : Bool :=
  match s.findParticipant identity with
  | some p => p.role == Role.facilitator
  | none => false

/-- Modelled from the spec: the result of an accepted command: the next state,
the events broadcast to every registered connection, and the events delivered
privately to the submitting connection only. -/
structure CmdOutcome where
  next : Session
  broadcastEvents : List Event
  privateEvents : List Event
deriving DecidableEq

/-- Modelled from the spec: Join marks an existing identity connected or
inserts a new Participant with default role, broadcasts ParticipantJoined and
sends a full-state snapshot privately to the joiner. -/
def applyJoin (s : Session) (identity displayName : String) :
    Except SessionError CmdOutcome :=
  match s.findParticipant identity with
  | some _ =>
    let f := fun q : Participant =>
      if q.identity == identity then { q with connected := true } else q
    let s' := { s with participants := s.participants.map f }
    Except.ok ⟨s', [Event.participantJoined identity], [Event.snapshot s']⟩
  | none =>
    let s' := { s with participants :=
      s.participants ++ [⟨identity, displayName, Role.voter, true, none⟩] }
    Except.ok ⟨s', [Event.participantJoined identity], [Event.snapshot s']⟩

/-- Modelled from the spec: Leave marks the Participant disconnected (the
roster is retained for a grace period, not deleted). -/
def applyLeave (s : Session) (identity : String) : Except SessionError CmdOutcome :=
  let f := fun q : Participant =>
    if q.identity == identity then { q with connected := false } else q
  let s' := { s with participants := s.participants.map f }
  Except.ok ⟨s', [Event.participantLeft identity], []⟩

def recordVoteOnActive (items : List WorkItem) (identity value : String) :
    List WorkItem :=
  items.map (fun wi =>
    if wi.status == WStatus.active then
      { wi with votes := wi.votes.filter (fun kv => kv.1 != identity) ++ [(identity, value)] }
    else wi)

def revealActive (items : List WorkItem) : List WorkItem :=
  items.map (fun wi =>
    if wi.status == WStatus.active then { wi with revealed := true } else wi)

def Session.activeVotes (s : Session) : List (String × String) :=
  match s.activeItem with
  | some w => w.votes
  | none => []

/-- Modelled from the spec: the state after recording a vote: the vote is
stored on the active work item and on the participant. -/
def voteState (s : Session) (identity value : String) : Session :=
  { s with
    workItems := recordVoteOnActive s.workItems identity value,
    participants := s.participants.map
      (fun q => if q.identity == identity then { q with vote := some value } else q) }

/-- Modelled from the spec: whether every connected non-spectator participant
has voted (the trigger of the automatic reveal). -/
def autoRevealReady (s : Session) : Bool :=
  s.participants.all (fun q => !q.connected || q.role == Role.spectator || q.vote.isSome)

/-- Modelled from the spec: the state after a vote that triggers the automatic
reveal. -/
def voteRevealState (s : Session) (identity value : String) : Session :=
  { voteState s identity value with
    workItems := revealActive (voteState s identity value).workItems }

/-- Modelled from the spec: Vote is rejected with EINVALID_STATE if the active
WorkItem is already revealed or there is no active WorkItem, and with
EUNAUTHORIZED if the identity's role is spectator; otherwise it records the
vote and emits VoteCast (value withheld), auto-revealing when autoFinishVoting
is enabled and all connected non-spectators have voted. -/
def applyVote (s : Session) (identity value : String) :
    Except SessionError CmdOutcome :=
  match s.activeItem with
  | none => Except.error SessionError.EINVALID_STATE
  | some w =>
    if w.revealed then Except.error SessionError.EINVALID_STATE
    else
      match s.findParticipant identity with
      | none => Except.error SessionError.ENOT_FOUND
      | some p =>
        if p.role == Role.spectator then Except.error SessionError.EUNAUTHORIZED
        else
          if s.autoFinish && autoRevealReady (voteState s identity value) then
            Except.ok ⟨voteRevealState s identity value,
              [Event.voteCast identity,
               Event.votesRevealed (voteRevealState s identity value).activeVotes], []⟩
          else
            Except.ok ⟨voteState s identity value, [Event.voteCast identity], []⟩

/-- Modelled from the spec: Reveal requires facilitator role, is rejected with
EINVALID_STATE when there is no active item or it is already revealed, and
otherwise sets the reveal flag and emits VotesRevealed with all recorded
values. -/
def applyReveal (s : Session) (identity : String) : Except SessionError CmdOutcome :=
  if !s.isFacilitator identity then Except.error SessionError.EUNAUTHORIZED
  else
    match s.activeItem with
    | none => Except.error SessionError.EINVALID_STATE
    | some w =>
      if w.revealed then Except.error SessionError.EINVALID_STATE
      else
        let s' := { s with workItems := revealActive s.workItems }
        Except.ok ⟨s', [Event.votesRevealed w.votes], []⟩

/-- Modelled from the spec: ActivateWorkItem requires facilitator, is rejected
with ENOT_FOUND if the id is unknown, and otherwise makes that item active
with cleared votes and reveal flag, demoting the previously active item. -/
def applyActivate (s : Session) (identity workItemID : String) :
    Except SessionError CmdOutcome :=
  if !s.isFacilitator identity then Except.error SessionError.EUNAUTHORIZED
  else if s.workItems.all (fun wi => wi.id != workItemID) then
    Except.error SessionError.ENOT_FOUND
  else
    let s' := { s with
      workItems := s.workItems.map (fun wi =>
        if wi.id == workItemID then
          { wi with status := WStatus.active, revealed := false, votes := [] }
        else if wi.status == WStatus.active then { wi with status := WStatus.voted }
        else wi),
      participants := s.participants.map (fun q => { q with vote := none }) }
    Except.ok ⟨s', [Event.workItemActivated workItemID], []⟩

/-- Modelled from the spec: FinalizePoints requires facilitator and reveal flag
true; it sets the point value and status finalized and emits PlanFinalized. -/
def applyFinalize (s : Session) (identity points : String) :
    Except SessionError CmdOutcome :=
  if !s.isFacilitator identity then Except.error SessionError.EUNAUTHORIZED
  else
    match s.activeItem with
    | none => Except.error SessionError.EINVALID_STATE
    | some w =>
      if !w.revealed then Except.error SessionError.EINVALID_STATE
      else
        let s' := { s with workItems := s.workItems.map (fun wi =>
          if wi.status == WStatus.active then
            { wi with status := WStatus.finalized, points := some points }
          else wi) }
        Except.ok ⟨s', [Event.planFinalized w.id points], []⟩

/-- Modelled from the spec: ChangeLeader requires the current facilitator and a
connected new leader; it reassigns the leader role. -/
def applyChangeLeader (s : Session) (identity newLeaderIdentity : String) :
    Except SessionError CmdOutcome :=
  if !s.isFacilitator identity then Except.error SessionError.EUNAUTHORIZED
  else
    match s.findParticipant newLeaderIdentity with
    | none => Except.error SessionError.ENOT_FOUND
    | some p =>
      if !p.connected then Except.error SessionError.ENOT_FOUND
      else
        let s' := { s with
          leader := newLeaderIdentity,
          participants := s.participants.map (fun q =>
            if q.identity == newLeaderIdentity then { q with role := Role.facilitator }
            else if q.role == Role.facilitator then { q with role := Role.voter }
            else q) }
        Except.ok ⟨s', [Event.leaderChanged newLeaderIdentity], []⟩

/-- Modelled from the spec: the command processor validates and applies a
domain command against the current state, producing the next state and the
resulting events, or rejecting with a typed error. -/
def applyCommand (s : Session) : Command → Except SessionError CmdOutcome
  | Command.join identity displayName => applyJoin s identity displayName
  | Command.leave identity => applyLeave s identity
  | Command.vote identity value => applyVote s identity value
  | Command.reveal identity => applyReveal s identity
  | Command.activateWorkItem identity workItemID => applyActivate s identity workItemID
  | Command.finalizePoints identity points => applyFinalize s identity points
  | Command.changeLeader identity newLeaderIdentity => applyChangeLeader s identity newLeaderIdentity

def stepState (s : Session) (cmd : Command) : Session :=
  match applyCommand s cmd with
  | Except.error _ => s
  | Except.ok out => out.next

def runCmds (s : Session) (cmds : List Command) : Session :=
  cmds.foldl stepState s

def itemsActiveCount (items : List WorkItem) : Nat :=
  items.countP (fun wi => wi.status == WStatus.active)

/-- Modelled from the spec: invariant on a work item list: at most one active
item, and each item id occurs once (ids are unique keys supplied by the
persistence collaborator). -/
def ItemsInv (items : List WorkItem) : Prop :=
  itemsActiveCount items ≤ 1 ∧ (items.map (fun wi => wi.id)).Nodup

def Session.activeCount (s : Session) : Nat :=
  itemsActiveCount s.workItems

/-- Modelled from the spec: the session invariant, over the session's work
items. -/
def Session.Inv (s : Session) : Prop :=
  ItemsInv s.workItems

instance (items : List WorkItem) : Decidable (ItemsInv items) := by
  unfold ItemsInv
  infer_instance

instance (s : Session) : Decidable s.Inv := by
  unfold Session.Inv
  infer_instance

/-- Modelled from the spec: whether an event is delivered privately (the
snapshot subtype and error notices are never broadcast). -/
def Event.isPrivate : Event → Bool
  | Event.snapshot _ => true
  | Event.errorNotice _ => true
  | _ => false

/-- Modelled from the spec: one delivery of one event to one registered
connection (identified by a connection id). -/
structure Delivery where
  target : String
  event : Event
deriving DecidableEq

/-- Modelled from the spec: fan-out of a command's events, event by event, to
every registered connection. -/
def broadcastAll (conns : List String) : List Event → List Delivery
  | [] => []
  | e :: evs => conns.map (fun c => ⟨c, e⟩) ++ broadcastAll conns evs

/-- Modelled from the spec: the single worker processes one submitted command:
a rejected command leaves the state unchanged and sends a private error notice
to the submitter only; an accepted command's broadcast events go to every
registered connection and its private events to the submitter. -/
def processOne (conns : List String) (submitter : String) (s : Session)
    (cmd : Command) : Session × List Delivery :=
  match applyCommand s cmd with
  | Except.error e => (s, [⟨submitter, Event.errorNotice e⟩])
  | Except.ok out =>
    (out.next, broadcastAll conns out.broadcastEvents ++
      out.privateEvents.map (fun e => ⟨submitter, e⟩))

/-- Modelled from the spec: the Session's single ordered command queue,
consumed by exactly one worker; all deliveries of one command precede any
delivery of the next command. -/
def processQueue (conns : List String) (s : Session) :
    List (String × Command) → Session × List Delivery
  | [] => (s, [])
  | (sub, cmd) :: rest =>
    let r := processOne conns sub s cmd
    let r' := processQueue conns r.1 rest
    (r'.1, r.2 ++ r'.2)

/-- Events a given connection observes from a delivery list, private
deliveries (snapshots, error notices) excluded. -/
def observedLog (c : String) (ds : List Delivery) : List Event :=
  (ds.filter (fun d => d.target == c && !d.event.isPrivate)).map (fun d => d.event)

/-- The reference broadcast log: the broadcast events of each accepted command
in queue order. -/
def applyLog (s : Session) : List (String × Command) → List Event
  | [] => []
  | (_, cmd) :: rest =>
    match applyCommand s cmd with
    | Except.error _ => applyLog s rest
    | Except.ok out => out.broadcastEvents ++ applyLog out.next rest

/-! ## Part 2: the HTTP handlers under src/

Each handler is embedded as a pure function from the decoded request data and
the outcomes of the external collaborator calls it makes (database, validator,
cookie codec) to the ordered list of observable effects it performs.  Go's
`v.(string)` type assertion on a generic JSON map aborts the handler when the
key is absent or not a string; that abort is the `panicked` outcome. -/

/-- A dynamically typed JSON value as produced by decoding into Go's
`map[string]interface\x7b\x7d`. -/
inductive GoValue
  | str (s : String)
  | num (n : Int)
  | boolean (b : Bool)
  | null
deriving DecidableEq

/-- Lookup of `keyVal[k]` in the decoded generic JSON map. -/
def lookupKey (kv : List (String × GoValue)) (k : String) : Option GoValue :=
  (kv.find? (fun p => p.1 == k)).map (fun p => p.2)

/-- Go's `keyVal[k].(string)` type assertion: aborts (returns `none`) unless
the key is present with a string value. -/
def assertString (kv : List (String × GoValue)) (k : String) : Option String :=
  match lookupKey kv k with
  | some (GoValue.str s) => some s
  | _ => none

/-- The error wrapped in an `a.Failure` response: `Errorf(EINVALID, msg)` or a
collaborator error passed through unchanged. -/
inductive ApiErr
  | einvalid (msg : String)
  | passthrough (msg : String)
deriving DecidableEq

/-- Database calls the embedded handlers issue, with their arguments. -/
inductive DbCall
  | authUser (email pwd : String)
  | createUserRegistered (name email pwd activeUserId : String)
  | userResetRequest (email : String)
  | updateUserAccount (userId name email : String)
  | updateUserProfile (userId name : String)
  | updateUserProfileLdap (userId : String)
  | getUser (userId : String)
  | deleteUser (userId : String)
deriving DecidableEq

/-- Whether a database call mutates stored data (reads do not). -/
def DbCall.isMutation : DbCall → Bool
  | DbCall.authUser _ _ => false
  | DbCall.getUser _ => false
  | _ => true

/-- Email notifications the embedded handlers send. -/
inductive EmailMsg
  | sendWelcome (name email verifyId : String)
  | sendForgotPassword (name email resetId : String)
  | sendDeleteConfirmation (name email : String)
deriving DecidableEq

/-- One observable effect of a handler, in execution order:
`jsonRespond` is the old `respondWithStandardJSON(status, success, ...)`,
`failureResp`/`successResp` are the new `a.Failure`/`a.Success`, and the rest
are cookie writes, database calls and email sends. -/
inductive Effect
  | jsonRespond (status : Nat) (success : Bool)
  | failureResp (status : Nat) (err : ApiErr)
  | successResp (status : Nat)
  | setCookie
  | setSessionCookie
  | clearCookies
  | dbCall (c : DbCall)
  | sendEmail (m : EmailMsg)
deriving DecidableEq

/-- Outcome of a handler that contains unchecked type assertions. -/
inductive Outcome
  | panicked
  | completed (trace : List Effect)
deriving DecidableEq

/-- Whether an outcome is a normal completion whose responses are exactly one
EINVALID failure. -/
def Outcome.completesWithEinvalid : Outcome → Bool
  | Outcome.panicked => false
  | Outcome.completed t => t.any (fun e =>
      match e with
      | Effect.failureResp _ (ApiErr.einvalid _) => true
      | _ => false)

/-- handleLogin from src/api/auth.go lines 39-61: reads the generic JSON body
map, applies unchecked `.(string)` type assertions to warriorEmail and
warriorPassword, then authenticates against the database and sets a cookie.
`authResult` and `cookieOk` are the outcomes of `a.authUserDatabase` and
`a.createCookie`. -/
def handleLoginOld (kv : List (String × GoValue)) (authResult : Except Unit Unit)
    (cookieOk : Bool) : Outcome :=
  match assertString kv "warriorEmail" with
  | none => Outcome.panicked
  | some email =>
    match assertString kv "warriorPassword" with
    | none => Outcome.panicked
    | some pwd =>
      match authResult with
      | Except.error _ =>
        Outcome.completed [Effect.dbCall (DbCall.authUser email.toLower pwd),
          Effect.jsonRespond 401 false]
      | Except.ok _ =>
        if cookieOk then
          Outcome.completed [Effect.dbCall (DbCall.authUser email.toLower pwd),
            Effect.setCookie, Effect.jsonRespond 200 true]
        else
          Outcome.completed [Effect.dbCall (DbCall.authUser email.toLower pwd),
            Effect.jsonRespond 500 false]

/-- The decoded login request body of the storyboard-era implementation. -/
structure LoginBody where
  email : String
  password : String
deriving DecidableEq

/-- handleLogin from src/api/storyboard/storyboard.go lines 62-91 (the newer
`package api` implementation): body read errors and `json.Unmarshal` errors
each produce a 400 EINVALID failure and return; otherwise the handler
authenticates and sets a session cookie.  `bodyErr` is the `ioutil.ReadAll`
error, `decode` the unmarshal outcome, `authResult` and `cookieOk` the
`a.db.AuthUser` and `a.createSessionCookie` outcomes. -/
def handleLoginNew (bodyErr : Option String) (decode : Except String LoginBody)
    (authResult : Except Unit Unit) (cookieOk : Bool) : List Effect :=
  match bodyErr with
  | some msg => [Effect.failureResp 400 (ApiErr.einvalid msg)]
  | none =>
    match decode with
    | Except.error msg => [Effect.failureResp 400 (ApiErr.einvalid msg)]
    | Except.ok u =>
      match authResult with
      | Except.error _ =>
        [Effect.dbCall (DbCall.authUser u.email.toLower u.password),
         Effect.failureResp 401 (ApiErr.einvalid "INVALID_LOGIN")]
      | Except.ok _ =>
        if cookieOk then
          [Effect.dbCall (DbCall.authUser u.email.toLower u.password),
           Effect.setSessionCookie, Effect.successResp 200]
        else
          [Effect.dbCall (DbCall.authUser u.email.toLower u.password),
           Effect.failureResp 500 (ApiErr.einvalid "INVALID_COOKIE")]

/-- handleUserRegistration from src/api/auth.go lines 152-191: when
config.allow_registration is false it writes a 400 response WITHOUT returning,
then proceeds exactly as in the enabled case.  `kv` is the generic JSON body
map (unchecked `.(string)` assertions on the four warrior fields),
`activeUserId` the cookie-derived id (its error is discarded), `accountErr`
the `ValidateUserAccount` outcome and `createResult` the
`a.db.CreateUserRegistered` outcome carrying the VerifyID. -/
def handleUserRegistrationOld (allowRegistration : Bool)
    (kv : List (String × GoValue)) (activeUserId : String)
    (accountErr : Option String) (createResult : Except String String) : Outcome :=
  let pre : List Effect :=
    if allowRegistration then [] else [Effect.jsonRespond 400 false]
  match assertString kv "warriorName", assertString kv "warriorEmail",
        assertString kv "warriorPassword1", assertString kv "warriorPassword2" with
  | some nm, some em, some p1, some _ =>
    match accountErr with
    | some _ => Outcome.completed (pre ++ [Effect.jsonRespond 400 false])
    | none =>
      match createResult with
      | Except.error _ =>
        Outcome.completed (pre ++
          [Effect.dbCall (DbCall.createUserRegistered nm em.toLower p1 activeUserId),
           Effect.jsonRespond 500 false])
      | Except.ok vid =>
        Outcome.completed (pre ++
          [Effect.dbCall (DbCall.createUserRegistered nm em.toLower p1 activeUserId),
           Effect.setCookie,
           Effect.sendEmail (EmailMsg.sendWelcome nm em.toLower vid),
           Effect.jsonRespond 200 true])
  | _, _, _, _ => Outcome.panicked

/-- The decoded registration request body of the newer implementation. -/
structure RegisterBody where
  name : String
  email : String
  password1 : String
  password2 : String
deriving DecidableEq

/-- handleUserRegistration from src/api/storyboard/storyboard.go lines 229-283
(the newer implementation): when config.allow_registration is false it writes
a 400 EINVALID failure WITHOUT returning, then proceeds exactly as in the
enabled case: decode body, validate, create the registered user, send the
welcome email, clear old cookies when an active user id was present, and set
the session cookie. -/
def handleUserRegistrationNew (allowRegistration : Bool) (bodyErr : Option String)
    (decode : Except String RegisterBody) (activeUserId : String)
    (accountErr : Option String) (createResult : Except String (String × String))
    (cookieOk : Bool) : List Effect :=
  let pre : List Effect :=
    if allowRegistration then []
    else [Effect.failureResp 400 (ApiErr.einvalid "USER_REGISTRATION_DISABLED")]
  match bodyErr with
  | some msg => pre ++ [Effect.failureResp 400 (ApiErr.einvalid msg)]
  | none =>
    match decode with
    | Except.error msg => pre ++ [Effect.failureResp 400 (ApiErr.einvalid msg)]
    | Except.ok u =>
      match accountErr with
      | some msg => pre ++ [Effect.failureResp 400 (ApiErr.passthrough msg)]
      | none =>
        match createResult with
        | Except.error msg =>
          pre ++ [Effect.dbCall (DbCall.createUserRegistered u.name u.email.toLower
                    u.password1 activeUserId),
                  Effect.failureResp 500 (ApiErr.passthrough msg)]
        | Except.ok r =>
          pre ++ [Effect.dbCall (DbCall.createUserRegistered u.name u.email.toLower
                    u.password1 activeUserId),
                  Effect.sendEmail (EmailMsg.sendWelcome u.name u.email.toLower r.1)] ++
          (if activeUserId != "" then [Effect.clearCookies] else []) ++
          (if cookieOk then [Effect.setSessionCookie, Effect.successResp 200]
           else [Effect.failureResp 500 (ApiErr.einvalid "INVALID_COOKIE")])

/-- handleForgotPassword from src/api/storyboard/storyboard.go lines 297-321:
after a successful decode it requests a reset from the database; when that
succeeds it sends the reset email; in either case it responds 200 with an
empty success body (the database error is swallowed).  `resetResult` carries
(ResetID, UserName) on success. -/
def handleForgotPassword (bodyErr : Option String) (decode : Except String String)
    (resetResult : Except Unit (String × String)) : List Effect :=
  match bodyErr with
  | some msg => [Effect.failureResp 400 (ApiErr.einvalid msg)]
  | none =>
    match decode with
    | Except.error msg => [Effect.failureResp 400 (ApiErr.einvalid msg)]
    | Except.ok email =>
      [Effect.dbCall (DbCall.userResetRequest email.toLower)] ++
      (match resetResult with
       | Except.ok r => [Effect.sendEmail
           (EmailMsg.sendForgotPassword r.2 email.toLower r.1)]
       | Except.error _ => []) ++
      [Effect.successResp 200]

/-- The admin user type constant the session middleware stores in the request
context (defined outside the excerpted files). -/
def adminUserType : String := "ADMIN"

/-- The decoded profile update request body (src/unnamed/part_000 lines
61-70). -/
structure ProfileBody where
  name : String
  avatar : String
  notificationsEnabled : Bool
  country : String
  locale : String
  company : String
  jobTitle : String
  email : String
deriving DecidableEq

/-- handleUserProfileUpdate from src/unnamed/part_000 lines 84-140: body and
decode failures produce a 400 EINVALID failure before anything else; the admin
path validates name/email before calling UpdateUserAccount; the non-admin
non-LDAP path rejects an empty name with 400 EINVALID before calling
UpdateUserProfile; the LDAP path calls UpdateUserProfileLdap; afterwards the
handler re-reads the user.  `vErr` is the `validateUserAccount` outcome,
`updateErr` the update call outcome, `getUserOk` the final `GetUser`
outcome. -/
def handleUserProfileUpdate (sessionUserType : String) (userId : String)
    (bodyErr : Option String) (decode : Except String ProfileBody)
    (ldapEnabled : Bool) (vErr : Option String) (updateErr : Option String)
    (getUserResult : Except String Unit) : List Effect :=
  let tail : DbCall → List Effect := fun upd =>
    match updateErr with
    | some msg => [Effect.dbCall upd, Effect.failureResp 500 (ApiErr.passthrough msg)]
    | none =>
      match getUserResult with
      | Except.error msg => [Effect.dbCall upd, Effect.dbCall (DbCall.getUser userId),
          Effect.failureResp 500 (ApiErr.passthrough msg)]
      | Except.ok _ => [Effect.dbCall upd, Effect.dbCall (DbCall.getUser userId),
          Effect.successResp 200]
  match bodyErr with
  | some msg => [Effect.failureResp 400 (ApiErr.einvalid msg)]
  | none =>
    match decode with
    | Except.error msg => [Effect.failureResp 400 (ApiErr.einvalid msg)]
    | Except.ok profile =>
      if sessionUserType == adminUserType then
        match vErr with
        | some msg => [Effect.failureResp 400 (ApiErr.passthrough msg)]
        | none => tail (DbCall.updateUserAccount userId profile.name profile.email)
      else
        if !ldapEnabled then
          if profile.name == "" then
            [Effect.failureResp 400 (ApiErr.einvalid "INVALID_USERNAME")]
          else tail (DbCall.updateUserProfile userId profile.name)
        else tail (DbCall.updateUserProfileLdap userId)

/-- handleUserDelete from src/unnamed/part_000 lines 153-181: looks up the
target user, deletes it, sends the delete-confirmation email, and clears the
requester's cookies only when the deleted userId equals the requester's own
session user id.  `getUserResult` carries the target's (name, email). -/
def handleUserDelete (userId userCookieId : String)
    (getUserResult : Except String (String × String))
    (deleteErr : Option String) : List Effect :=
  match getUserResult with
  | Except.error msg =>
    [Effect.dbCall (DbCall.getUser userId),
     Effect.failureResp 500 (ApiErr.passthrough msg)]
  | Except.ok u =>
    match deleteErr with
    | some msg =>
      [Effect.dbCall (DbCall.getUser userId), Effect.dbCall (DbCall.deleteUser userId),
       Effect.failureResp 500 (ApiErr.passthrough msg)]
    | none =>
      [Effect.dbCall (DbCall.getUser userId), Effect.dbCall (DbCall.deleteUser userId),
       Effect.sendEmail (EmailMsg.sendDeleteConfirmation u.1 u.2)] ++
      (if userId == userCookieId then [Effect.clearCookies] else []) ++
      [Effect.successResp 200]

/-- Whether a trace contains a 400 failure response (an EINVALID or validation
rejection). -/
def trace400 (t : List Effect) : Bool :=
  t.any (fun e =>
    match e with
    | Effect.failureResp 400 _ => true
    | _ => false)

/-- Whether a trace contains a mutating database call. -/
def traceHasMutation (t : List Effect) : Bool :=
  t.any (fun e =>
    match e with
    | Effect.dbCall c => c.isMutation
    | _ => false)

/-- Responses written by a trace. -/
def responsesOf (t : List Effect) : List Effect :=
  t.filter (fun e =>
    match e with
    | Effect.jsonRespond _ _ => true
    | Effect.failureResp _ _ => true
    | Effect.successResp _ => true
    | _ => false)

/-- The trace without its email-send effects. -/
def nonEmailOf (t : List Effect) : List Effect :=
  t.filter (fun e =>
    match e with
    | Effect.sendEmail _ => false
    | _ => true)

/-- Prepending one effect to a completed outcome's trace. -/
def Outcome.prepend (e : Effect) : Outcome → Outcome
  | Outcome.panicked => Outcome.panicked
  | Outcome.completed t => Outcome.completed (e :: t)

/-! ## Concrete fixtures used to instantiate the theorems -/

def demoItemRevealed : WorkItem := ⟨"w1", WStatus.active, true, [("a", "3")], none⟩

def demoItemOpen : WorkItem := ⟨"w1", WStatus.active, false, [], none⟩

def demoRoster : List Participant :=
  [⟨"f", "F", Role.facilitator, true, none⟩,
   ⟨"a", "A", Role.voter, true, none⟩,
   ⟨"c", "C", Role.spectator, true, none⟩]

def demoRevealed : Session := ⟨[demoItemRevealed], demoRoster, "f", false⟩

def demoOpen : Session := ⟨[demoItemOpen], demoRoster, "f", false⟩

def demoEmpty : Session := ⟨[], [], "", false⟩

def demoW1Cleared : WorkItem := ⟨"w1", WStatus.active, false, [], none⟩

def demoActivatedOut : CmdOutcome :=
  ⟨⟨[demoW1Cleared], demoRoster, "f", false⟩, [Event.workItemActivated "w1"], []⟩

def demoRevealOut : CmdOutcome :=
  ⟨⟨[⟨"w1", WStatus.active, true, [], none⟩], demoRoster, "f", false⟩,
   [Event.votesRevealed []], []⟩

/-! ## Helper lemmas -/

theorem countP_map_eq {α : Type} (p q : α → Bool) (f : α → α)
    (h : ∀ x, p (f x) = q x) :
    ∀ l : List α, (l.map f).countP p = l.countP q := by
  intro l
  induction l with
  | nil => rfl
  | cons a t ih => simp [List.countP_cons, ih, h a]

theorem map_map_eq {α β : Type} (g : α → β) (f : α → α) (h : ∀ x, g (f x) = g x) :
    ∀ l : List α, (l.map f).map g = l.map g := by
  intro l
  induction l with
  | nil => rfl
  | cons a t ih => simp [ih, h a]

theorem find?_map_pres {α : Type} (p : α → Bool) (f : α → α)
    (h : ∀ x, p (f x) = p x) :
    ∀ l : List α, (l.map f).find? p = (l.find? p).map f := by
  intro l
  induction l with
  | nil => rfl
  | cons a t ih =>
    simp only [List.map_cons, List.find?_cons, h a]
    cases hp : p a <;> simp [ih]

/-! ## Claim theorems -/

/-- C1 counterexample: the body given by the JSON object with no keys is
decodable JSON but shape-mismatched; on it the auth.go handleLogin hits the
unchecked `keyVal["warriorEmail"].(string)` type assertion and aborts instead
of completing with an EINVALID failure response. -/
theorem login_old_empty_body_aborts :
    handleLoginOld [] (Except.error ()) true = Outcome.panicked ∧
    (handleLoginOld [] (Except.error ()) true).completesWithEinvalid = false := by
  exact ⟨rfl, rfl⟩

/-- C1 (amended): the storyboard-era handleLogin terminates normally with a 400
EINVALID failure on every body read error and every undecodable body; the
auth.go handleLogin terminates normally only when warriorEmail and
warriorPassword are present as strings, and aborts on the unchecked type
assertion otherwise (producing no EINVALID response). -/
theorem login_malformed_body_einvalid :
    (∀ msg authResult cookieOk,
      handleLoginNew none (Except.error msg) authResult cookieOk =
        [Effect.failureResp 400 (ApiErr.einvalid msg)]) ∧
    (∀ msg decode authResult cookieOk,
      handleLoginNew (some msg) decode authResult cookieOk =
        [Effect.failureResp 400 (ApiErr.einvalid msg)]) ∧
    (∀ kv authResult cookieOk, assertString kv "warriorEmail" = none →
      handleLoginOld kv authResult cookieOk = Outcome.panicked) ∧
    (∀ kv authResult cookieOk e, assertString kv "warriorEmail" = some e →
      assertString kv "warriorPassword" = none →
      handleLoginOld kv authResult cookieOk = Outcome.panicked) := by
  refine ⟨fun msg a c => rfl, fun msg d a c => rfl, ?_, ?_⟩
  · intro kv a c h
    simp [handleLoginOld, h]
  · intro kv a c e h1 h2
    simp [handleLoginOld, h1, h2]

theorem login_malformed_body_einvalid_witness :
    handleLoginNew none (Except.error "bad json") (Except.error ()) true =
      [Effect.failureResp 400 (ApiErr.einvalid "bad json")] ∧
    handleLoginOld [("warriorEmail", GoValue.num 3)] (Except.error ()) true =
      Outcome.panicked :=
  ⟨login_malformed_body_einvalid.1 "bad json" (Except.error ()) true,
   login_malformed_body_einvalid.2.2.1 [("warriorEmail", GoValue.num 3)]
     (Except.error ()) true (by decide)⟩

/-- C8: in both implementations of handleUserRegistration, when
config.allow_registration is false the handler writes the 400 failure response
and then continues exactly as in the enabled case, so a well-formed valid
request still creates the registered user, sends the welcome email and sets
the cookie. -/
theorem registration_disabled_still_registers :
    (∀ kv aid aerr cres,
      handleUserRegistrationOld false kv aid aerr cres =
        Outcome.prepend (Effect.jsonRespond 400 false)
          (handleUserRegistrationOld true kv aid aerr cres)) ∧
    (∀ be dec aid aerr cres cok,
      handleUserRegistrationNew false be dec aid aerr cres cok =
        Effect.failureResp 400 (ApiErr.einvalid "USER_REGISTRATION_DISABLED") ::
          handleUserRegistrationNew true be dec aid aerr cres cok) ∧
    (∀ nm em p1 p2 aid vid,
      handleUserRegistrationOld false
          [("warriorName", GoValue.str nm), ("warriorEmail", GoValue.str em),
           ("warriorPassword1", GoValue.str p1), ("warriorPassword2", GoValue.str p2)]
          aid none (Except.ok vid) =
        Outcome.completed
          [Effect.jsonRespond 400 false,
           Effect.dbCall (DbCall.createUserRegistered nm em.toLower p1 aid),
           Effect.setCookie,
           Effect.sendEmail (EmailMsg.sendWelcome nm em.toLower vid),
           Effect.jsonRespond 200 true]) ∧
    (∀ u aid vid sid,
      Effect.dbCall (DbCall.createUserRegistered u.name u.email.toLower
          u.password1 aid) ∈
        handleUserRegistrationNew false none (Except.ok u) aid none
          (Except.ok (vid, sid)) true ∧
      Effect.sendEmail (EmailMsg.sendWelcome u.name u.email.toLower vid) ∈
        handleUserRegistrationNew false none (Except.ok u) aid none
          (Except.ok (vid, sid)) true ∧
      Effect.setSessionCookie ∈
        handleUserRegistrationNew false none (Except.ok u) aid none
          (Except.ok (vid, sid)) true) := by
  refine ⟨?_, ?_, ?_, ?_⟩
  · intro kv aid aerr cres
    unfold handleUserRegistrationOld
    cases assertString kv "warriorName" <;>
      cases assertString kv "warriorEmail" <;>
        cases assertString kv "warriorPassword1" <;>
          cases assertString kv "warriorPassword2" <;>
            cases aerr <;> cases cres <;> simp [Outcome.prepend]
  · intro be dec aid aerr cres cok
    unfold handleUserRegistrationNew
    cases be <;> cases dec <;> cases aerr <;> cases cres <;> simp
  · intro nm em p1 p2 aid vid
    rfl
  · intro u aid vid sid
    refine ⟨?_, ?_, ?_⟩ <;>
      by_cases h : aid = "" <;>
        simp [handleUserRegistrationNew, h]

/-- C9: for every well-formed forgot-password request the storyboard-era
handleForgotPassword responds 200 with an empty success body whether or not
the email matches an existing user; the two runs differ only in the email
side effect, so account existence is not observable from the response. -/
theorem forgot_password_hides_account_existence (email rid uname : String) :
    responsesOf (handleForgotPassword none (Except.ok email)
        (Except.ok (rid, uname))) = [Effect.successResp 200] ∧
    responsesOf (handleForgotPassword none (Except.ok email)
        (Except.error ())) = [Effect.successResp 200] ∧
    nonEmailOf (handleForgotPassword none (Except.ok email)
        (Except.ok (rid, uname))) =
      nonEmailOf (handleForgotPassword none (Except.ok email)
        (Except.error ())) := by
  exact ⟨rfl, rfl, rfl⟩

/-- C10: on a successful handleUserDelete request the requester's session
cookies are cleared exactly when the deleted userId equals the requester's own
session user id, while the target is deleted and sent a confirmation email in
every successful run. -/
theorem user_delete_cookie_frame (userId userCookieId nm em : String) :
    (Effect.clearCookies ∈
        handleUserDelete userId userCookieId (Except.ok (nm, em)) none ↔
      userId = userCookieId) ∧
    Effect.dbCall (DbCall.deleteUser userId) ∈
      handleUserDelete userId userCookieId (Except.ok (nm, em)) none ∧
    Effect.sendEmail (EmailMsg.sendDeleteConfirmation nm em) ∈
      handleUserDelete userId userCookieId (Except.ok (nm, em)) none := by
  by_cases h : userId = userCookieId <;>
    simp [handleUserDelete, h]

/-- C3: Vote is rejected with EINVALID_STATE when there is no active work item
or the active item is already revealed, with EUNAUTHORIZED when the identity's
role is spectator (and the state check passes), and no rejection mutates the
session state. -/
theorem vote_rejection_rules (s : Session) (identity value : String) :
    (s.activeItem = none →
      applyVote s identity value = Except.error SessionError.EINVALID_STATE) ∧
    (∀ w, s.activeItem = some w → w.revealed = true →
      applyVote s identity value = Except.error SessionError.EINVALID_STATE) ∧
    (∀ w p, s.activeItem = some w → w.revealed = false →
      s.findParticipant identity = some p → p.role = Role.spectator →
      applyVote s identity value = Except.error SessionError.EUNAUTHORIZED) ∧
    (∀ e, applyVote s identity value = Except.error e →
      stepState s (Command.vote identity value) = s) := by
  refine ⟨?_, ?_, ?_, ?_⟩
  · intro h
    simp [applyVote, h]
  · intro w hw hr
    simp [applyVote, hw, hr]
  · intro w p hw hr hp hrole
    simp [applyVote, hw, hr, hp, hrole]
  · intro e h
    simp [stepState, applyCommand, h]

theorem vote_rejection_rules_witness :
    applyVote demoEmpty "a" "5" = Except.error SessionError.EINVALID_STATE ∧
    applyVote demoRevealed "a" "5" = Except.error SessionError.EINVALID_STATE ∧
    applyVote demoOpen "c" "5" = Except.error SessionError.EUNAUTHORIZED ∧
    stepState demoRevealed (Command.vote "a" "5") = demoRevealed :=
  ⟨(vote_rejection_rules demoEmpty "a" "5").1 (by decide),
   (vote_rejection_rules demoRevealed "a" "5").2.1 demoItemRevealed
     (by decide) (by decide),
   (vote_rejection_rules demoOpen "c" "5").2.2.1 demoItemOpen
     ⟨"c", "C", Role.spectator, true, none⟩ (by decide) (by decide)
     (by decide) (by decide),
   (vote_rejection_rules demoRevealed "a" "5").2.2.2 SessionError.EINVALID_STATE
     rfl⟩

/-- C4: for a facilitator, ActivateWorkItem is rejected with ENOT_FOUND when
the work item id is unknown, and otherwise every work item carrying the
activated id ends with an empty vote set, a cleared reveal flag and active
status, whatever votes it held before. -/
theorem activate_clears_new_item (s : Session) (identity wid : String)
    (hf : s.isFacilitator identity = true) :
    ((∀ wi ∈ s.workItems, wi.id ≠ wid) →
      applyActivate s identity wid = Except.error SessionError.ENOT_FOUND) ∧
    (∀ out, applyActivate s identity wid = Except.ok out →
      ∀ wi ∈ out.next.workItems, wi.id = wid →
        wi.votes = [] ∧ wi.revealed = false ∧ wi.status = WStatus.active) := by
  constructor
  · intro h
    have hall : s.workItems.all (fun wi => wi.id != wid) = true := by
      rw [List.all_eq_true]
      intro wi hwi
      simpa using h wi hwi
    simp [applyActivate, hf, hall]
  · intro out hout wi hwi hid
    unfold applyActivate at hout
    rw [hf] at hout
    simp only [Bool.not_true, Bool.false_eq_true, if_false] at hout
    split at hout
    · exact absurd hout (by simp)
    · cases hout
      obtain ⟨orig, horig, rfl⟩ := List.mem_map.mp hwi
      by_cases hidw : (orig.id == wid) = true
      · simp [hidw]
      · exfalso
        by_cases hact : (orig.status == WStatus.active) = true <;>
          simp [hidw, hact] at hid <;> simp [hid] at hidw

theorem activate_clears_new_item_witness :
    applyActivate demoOpen "f" "zzz" = Except.error SessionError.ENOT_FOUND ∧
    (demoW1Cleared.votes = [] ∧ demoW1Cleared.revealed = false ∧
      demoW1Cleared.status = WStatus.active) :=
  ⟨(activate_clears_new_item demoOpen "f" "zzz" (by decide)).1 (by decide),
   (activate_clears_new_item demoRevealed "f" "w1" (by decide)).2 demoActivatedOut
     rfl demoW1Cleared (by decide) (by decide)⟩

/-- C5: Reveal is idempotent in effect: an accepted Reveal emits the
VotesRevealed event exactly once, and a second Reveal on the resulting state is
rejected with EINVALID_STATE and leaves that state unchanged. -/
theorem reveal_idempotent_in_effect (s : Session) (identity : String)
    (out : CmdOutcome) (h : applyReveal s identity = Except.ok out) :
    out.broadcastEvents.countP (fun e =>
        match e with
        | Event.votesRevealed _ => true
        | _ => false) = 1 ∧
    applyReveal out.next identity = Except.error SessionError.EINVALID_STATE ∧
    stepState out.next (Command.reveal identity) = out.next := by
  unfold applyReveal at h
  split at h
  · exact absurd h (by simp)
  · rename_i hfacneg
    split at h
    · exact absurd h (by simp)
    · rename_i w heq
      split at h
      · exact absurd h (by simp)
      · rename_i hrev
        cases h
        have hfac : s.isFacilitator identity = true := by simpa using hfacneg
        have hw' : List.find? (fun w => w.status == WStatus.active) s.workItems
            = some w := heq
        have pw : (w.status == WStatus.active) = true := by
          have h2 := List.find?_some hw'
          simpa using h2
        have hmap := find?_map_pres (fun wi => wi.status == WStatus.active)
          (fun wi => if wi.status == WStatus.active then
            { wi with revealed := true } else wi)
          (by
            intro x
            by_cases hx : (x.status == WStatus.active) = true <;> simp [hx])
          s.workItems
        have hact : Session.activeItem
            { s with workItems := revealActive s.workItems } =
            some { w with revealed := true } := by
          show List.find? _ (revealActive s.workItems) = _
          unfold revealActive
          rw [hmap, hw']
          simp [pw]
          intro hns
          exact absurd (show w.status = WStatus.active by simpa using pw) hns
        have hfac' : Session.isFacilitator
            { s with workItems := revealActive s.workItems } identity = true := hfac
        refine ⟨rfl, ?_, ?_⟩
        · simp [applyReveal, hfac', hact]
        · simp [stepState, applyCommand, applyReveal, hfac', hact]

theorem reveal_idempotent_in_effect_witness :
    demoRevealOut.broadcastEvents.countP (fun e =>
        match e with
        | Event.votesRevealed _ => true
        | _ => false) = 1 ∧
    applyReveal demoRevealOut.next "f" = Except.error SessionError.EINVALID_STATE ∧
    stepState demoRevealOut.next (Command.reveal "f") = demoRevealOut.next :=
  reveal_idempotent_in_effect demoOpen "f" demoRevealOut rfl

/-- C7: a rejected command leaves the session state unchanged and its error is
delivered privately to the submitting connection only, and in
handleUserProfileUpdate every 400 (EINVALID or validation) failure path
returns before any mutating database call is invoked. -/
theorem rejection_private_and_pure :
    (∀ conns sub s cmd e, applyCommand s cmd = Except.error e →
      processOne conns sub s cmd = (s, [⟨sub, Event.errorNotice e⟩])) ∧
    (∀ sut uid be dec ld v upd g,
      trace400 (handleUserProfileUpdate sut uid be dec ld v upd g) = true →
      traceHasMutation (handleUserProfileUpdate sut uid be dec ld v upd g) = false) := by
  constructor
  · intro conns sub s cmd e h
    simp [processOne, h]
  · intro sut uid be dec ld v upd g h
    cases be with
    | some m => simp [handleUserProfileUpdate, traceHasMutation]
    | none =>
    cases dec with
    | error m => simp [handleUserProfileUpdate, traceHasMutation]
    | ok profile =>
    by_cases hA : sut = adminUserType
    · cases v with
      | some m => simp [handleUserProfileUpdate, hA, traceHasMutation]
      | none =>
        cases upd with
        | some m => simp [handleUserProfileUpdate, hA, trace400] at h
        | none =>
          cases g with
          | error m => simp [handleUserProfileUpdate, hA, trace400] at h
          | ok u => simp [handleUserProfileUpdate, hA, trace400] at h
    · cases ld with
      | false =>
        by_cases hN : profile.name = ""
        · simp [handleUserProfileUpdate, hA, hN, traceHasMutation]
        · cases upd with
          | some m => simp [handleUserProfileUpdate, hA, hN, trace400] at h
          | none =>
            cases g with
            | error m => simp [handleUserProfileUpdate, hA, hN, trace400] at h
            | ok u => simp [handleUserProfileUpdate, hA, hN, trace400] at h
      | true =>
        cases upd with
        | some m => simp [handleUserProfileUpdate, hA, trace400] at h
        | none =>
          cases g with
          | error m => simp [handleUserProfileUpdate, hA, trace400] at h
          | ok u => simp [handleUserProfileUpdate, hA, trace400] at h

theorem rejection_private_and_pure_witness :
    processOne ["c1"] "c1" demoEmpty (Command.vote "u" "3") =
      (demoEmpty, [⟨"c1", Event.errorNotice SessionError.EINVALID_STATE⟩]) ∧
    traceHasMutation (handleUserProfileUpdate "ADMIN" "u" (some "boom")
      (Except.error "x") false none none (Except.ok ())) = false :=
  ⟨rejection_private_and_pure.1 ["c1"] "c1" demoEmpty (Command.vote "u" "3")
      SessionError.EINVALID_STATE rfl,
   rejection_private_and_pure.2 "ADMIN" "u" (some "boom") (Except.error "x") false
      none none (Except.ok ()) (by decide)⟩

theorem countP_id_eq_zero (t : List WorkItem) (wid : String)
    (h : wid ∉ t.map (fun wi => wi.id)) :
    t.countP (fun wi => wi.id == wid) = 0 := by
  induction t with
  | nil => rfl
  | cons a t ih =>
    simp only [List.map_cons, List.mem_cons, not_or] at h
    have ha : (a.id == wid) = false := by
      rw [beq_eq_false_iff_ne]
      exact fun hh => h.1 hh.symm
    simp [List.countP_cons, ha, ih h.2]

theorem countP_id_le_one (items : List WorkItem) (wid : String)
    (hn : (items.map (fun wi => wi.id)).Nodup) :
    items.countP (fun wi => wi.id == wid) ≤ 1 := by
  induction items with
  | nil => simp
  | cons a t ih =>
    simp only [List.map_cons, List.nodup_cons] at hn
    by_cases ha : (a.id == wid) = true
    · have hnm : wid ∉ t.map (fun wi => wi.id) := by
        have h1 := hn.1
        rw [show a.id = wid from by simpa using ha] at h1
        exact h1
      simp [List.countP_cons, ha, countP_id_eq_zero t wid hnm]
    · have ha' : (a.id == wid) = false := by
        cases hb : (a.id == wid)
        · rfl
        · exact absurd hb ha
      simp [List.countP_cons, ha', ih hn.2]

theorem ItemsInv_map (items : List WorkItem) (f : WorkItem → WorkItem)
    (hstat : ∀ x, ((f x).status == WStatus.active) = (x.status == WStatus.active))
    (hid : ∀ x, (f x).id = x.id)
    (h : ItemsInv items) : ItemsInv (items.map f) := by
  obtain ⟨hc, hn⟩ := h
  constructor
  · unfold itemsActiveCount at *
    rw [countP_map_eq _ _ f hstat items]
    exact hc
  · rw [map_map_eq (fun wi => wi.id) f hid items]
    exact hn

theorem recordVote_inv (items : List WorkItem) (identity value : String)
    (h : ItemsInv items) : ItemsInv (recordVoteOnActive items identity value) := by
  unfold recordVoteOnActive
  refine ItemsInv_map items _ ?_ ?_ h <;>
    intro x <;>
      by_cases hx : (x.status == WStatus.active) = true <;> simp [hx]

theorem revealActive_inv (items : List WorkItem)
    (h : ItemsInv items) : ItemsInv (revealActive items) := by
  unfold revealActive
  refine ItemsInv_map items _ ?_ ?_ h <;>
    intro x <;>
      by_cases hx : (x.status == WStatus.active) = true <;> simp [hx]

theorem activate_items_inv (items : List WorkItem) (wid : String)
    (h : ItemsInv items) :
    ItemsInv (items.map (fun wi =>
      if wi.id == wid then
        { wi with status := WStatus.active, revealed := false, votes := [] }
      else if wi.status == WStatus.active then { wi with status := WStatus.voted }
      else wi)) := by
  obtain ⟨hc, hn⟩ := h
  constructor
  · unfold itemsActiveCount
    have hpt : ∀ x : WorkItem,
        (((fun wi =>
          if wi.id == wid then
            { wi with status := WStatus.active, revealed := false, votes := [] }
          else if wi.status == WStatus.active then { wi with status := WStatus.voted }
          else wi) x).status == WStatus.active) = (x.id == wid) := by
      intro x
      by_cases h1 : (x.id == wid) = true <;>
        by_cases h2 : (x.status == WStatus.active) = true <;> simp [h1, h2]
    rw [countP_map_eq _ _ _ hpt items]
    exact countP_id_le_one items wid hn
  · have hid : ∀ x : WorkItem,
        ((fun wi =>
          if wi.id == wid then
            { wi with status := WStatus.active, revealed := false, votes := [] }
          else if wi.status == WStatus.active then { wi with status := WStatus.voted }
          else wi) x).id = x.id := by
      intro x
      by_cases h1 : (x.id == wid) = true <;>
        by_cases h2 : (x.status == WStatus.active) = true <;> simp [h1, h2]
    rw [map_map_eq _ _ hid items]
    exact hn

theorem finalize_items_inv (items : List WorkItem) (points : String)
    (h : ItemsInv items) :
    ItemsInv (items.map (fun wi =>
      if wi.status == WStatus.active then
        { wi with status := WStatus.finalized, points := some points }
      else wi)) := by
  obtain ⟨hc, hn⟩ := h
  constructor
  · unfold itemsActiveCount
    have hpt : ∀ x : WorkItem,
        (((fun wi =>
          if wi.status == WStatus.active then
            { wi with status := WStatus.finalized, points := some points }
          else wi) x).status == WStatus.active) = false := by
      intro x
      by_cases h2 : (x.status == WStatus.active) = true <;> simp [h2]
    rw [countP_map_eq _ (fun _ => false) _ hpt items]
    simp
  · have hid : ∀ x : WorkItem,
        ((fun wi =>
          if wi.status == WStatus.active then
            { wi with status := WStatus.finalized, points := some points }
          else wi) x).id = x.id := by
      intro x
      by_cases h2 : (x.status == WStatus.active) = true <;> simp [h2]
    rw [map_map_eq _ _ hid items]
    exact hn

theorem applyJoin_ok_inv (s : Session) (i d : String) (out : CmdOutcome)
    (hc : applyJoin s i d = Except.ok out) (h : s.Inv) : out.next.Inv := by
  unfold applyJoin at hc
  split at hc <;> (cases hc; exact h)

theorem applyLeave_ok_inv (s : Session) (i : String) (out : CmdOutcome)
    (hc : applyLeave s i = Except.ok out) (h : s.Inv) : out.next.Inv := by
  unfold applyLeave at hc
  cases hc
  exact h

theorem applyVote_ok_inv (s : Session) (i v : String) (out : CmdOutcome)
    (hc : applyVote s i v = Except.ok out) (h : s.Inv) : out.next.Inv := by
  unfold applyVote at hc
  split at hc
  · exact absurd hc (by simp)
  · split at hc
    · exact absurd hc (by simp)
    · split at hc
      · exact absurd hc (by simp)
      · split at hc
        · exact absurd hc (by simp)
        · split at hc
          · cases hc
            exact revealActive_inv _ (recordVote_inv _ i v h)
          · cases hc
            exact recordVote_inv _ i v h

theorem applyReveal_ok_inv (s : Session) (i : String) (out : CmdOutcome)
    (hc : applyReveal s i = Except.ok out) (h : s.Inv) : out.next.Inv := by
  unfold applyReveal at hc
  split at hc
  · exact absurd hc (by simp)
  · split at hc
    · exact absurd hc (by simp)
    · split at hc
      · exact absurd hc (by simp)
      · cases hc
        exact revealActive_inv _ h

theorem applyActivate_ok_inv (s : Session) (i wid : String) (out : CmdOutcome)
    (hc : applyActivate s i wid = Except.ok out) (h : s.Inv) : out.next.Inv := by
  unfold applyActivate at hc
  split at hc
  · exact absurd hc (by simp)
  · split at hc
    · exact absurd hc (by simp)
    · cases hc
      exact activate_items_inv _ wid h

theorem applyFinalize_ok_inv (s : Session) (i pts : String) (out : CmdOutcome)
    (hc : applyFinalize s i pts = Except.ok out) (h : s.Inv) : out.next.Inv := by
  unfold applyFinalize at hc
  split at hc
  · exact absurd hc (by simp)
  · split at hc
    · exact absurd hc (by simp)
    · split at hc
      · exact absurd hc (by simp)
      · cases hc
        exact finalize_items_inv _ pts h

theorem applyChangeLeader_ok_inv (s : Session) (i nl : String) (out : CmdOutcome)
    (hc : applyChangeLeader s i nl = Except.ok out) (h : s.Inv) : out.next.Inv := by
  unfold applyChangeLeader at hc
  split at hc
  · exact absurd hc (by simp)
  · split at hc
    · exact absurd hc (by simp)
    · split at hc
      · exact absurd hc (by simp)
      · cases hc
        exact h

theorem applyCommand_ok_inv (s : Session) (cmd : Command) (out : CmdOutcome)
    (hc : applyCommand s cmd = Except.ok out) (h : s.Inv) : out.next.Inv := by
  cases cmd with
  | join i d => exact applyJoin_ok_inv s i d out hc h
  | leave i => exact applyLeave_ok_inv s i out hc h
  | vote i v => exact applyVote_ok_inv s i v out hc h
  | reveal i => exact applyReveal_ok_inv s i out hc h
  | activateWorkItem i wid => exact applyActivate_ok_inv s i wid out hc h
  | finalizePoints i pts => exact applyFinalize_ok_inv s i pts out hc h
  | changeLeader i nl => exact applyChangeLeader_ok_inv s i nl out hc h

theorem stepState_inv (s : Session) (cmd : Command) (h : s.Inv) :
    (stepState s cmd).Inv := by
  unfold stepState
  cases hcmd : applyCommand s cmd with
  | error e => exact h
  | ok out => exact applyCommand_ok_inv s cmd out hcmd h

theorem runCmds_inv (cmds : List Command) :
    ∀ s : Session, s.Inv → (runCmds s cmds).Inv := by
  induction cmds with
  | nil => exact fun s h => h
  | cons c t ih =>
    intro s h
    exact ih (stepState s c) (stepState_inv s c h)

/-- C6: every session state reachable by any command sequence from a state
satisfying the session invariant has at most one active work item: every
command preserves the invariant. -/
theorem at_most_one_active (s : Session) (cmds : List Command) (h : s.Inv) :
    (runCmds s cmds).Inv ∧ (runCmds s cmds).activeCount ≤ 1 := by
  have hi := runCmds_inv cmds s h
  exact ⟨hi, hi.1⟩

theorem observedLog_append (c : String) (ds ds' : List Delivery) :
    observedLog c (ds ++ ds') = observedLog c ds ++ observedLog c ds' := by
  unfold observedLog
  rw [List.filter_append, List.map_append]

theorem observedLog_private (c sub : String) :
    ∀ evs : List Event, (∀ e ∈ evs, e.isPrivate = true) →
      observedLog c (evs.map (fun e => ⟨sub, e⟩)) = [] := by
  intro evs
  induction evs with
  | nil => intro _; rfl
  | cons e t ih =>
    intro h
    have he : e.isPrivate = true := h e (by simp)
    have ht := ih (fun x hx => h x (by simp [hx]))
    simp [observedLog, he] at ht ⊢
    exact ht

theorem observedLog_target_none (e : Event) (c : String) :
    ∀ t : List String, c ∉ t →
      observedLog c (t.map (fun c' => ⟨c', e⟩)) = [] := by
  intro t
  induction t with
  | nil => intro _; rfl
  | cons a t ih =>
    intro h
    have ha : (a == c) = false := by
      rw [beq_eq_false_iff_ne]
      intro hh
      exact h (by simp [hh.symm])
    have ht := ih (fun hx => h (by simp [hx]))
    simp [observedLog, ha] at ht ⊢
    exact ht

theorem observedLog_single (e : Event) (c : String) (he : e.isPrivate = false) :
    ∀ t : List String, t.Nodup → c ∈ t →
      observedLog c (t.map (fun c' => ⟨c', e⟩)) = [e] := by
  intro t
  induction t with
  | nil => intro _ h; exact absurd h (by simp)
  | cons a t ih =>
    intro hn hm
    simp only [List.nodup_cons] at hn
    by_cases hac : a = c
    · have hnotin : c ∉ t := by
        rw [← hac]
        exact hn.1
      have h0 := observedLog_target_none e c t hnotin
      simp [observedLog, hac, he] at h0 ⊢
      exact h0
    · have hm' : c ∈ t := by
        rcases List.mem_cons.mp hm with h1 | h2
        · exact absurd h1.symm hac
        · exact h2
      have h0 := ih hn.2 hm'
      simp [observedLog, hac, he] at h0 ⊢
      exact h0

theorem observedLog_broadcastAll (conns : List String) (c : String)
    (hn : conns.Nodup) (hc : c ∈ conns) :
    ∀ evs : List Event, (∀ e ∈ evs, e.isPrivate = false) →
      observedLog c (broadcastAll conns evs) = evs := by
  intro evs
  induction evs with
  | nil => intro _; rfl
  | cons e t ih =>
    intro h
    have he := h e (by simp)
    have ht := ih (fun x hx => h x (by simp [hx]))
    show observedLog c (conns.map (fun c' => ⟨c', e⟩) ++ broadcastAll conns t) = e :: t
    rw [observedLog_append, observedLog_single e c he conns hn hc, ht]
    rfl

theorem applyJoin_events (s : Session) (i d : String) (out : CmdOutcome)
    (h : applyJoin s i d = Except.ok out) :
    (∀ e ∈ out.broadcastEvents, e.isPrivate = false) ∧
    (∀ e ∈ out.privateEvents, e.isPrivate = true) := by
  unfold applyJoin at h
  split at h <;>
    (cases h; exact ⟨by simp [Event.isPrivate], by simp [Event.isPrivate]⟩)

theorem applyLeave_events (s : Session) (i : String) (out : CmdOutcome)
    (h : applyLeave s i = Except.ok out) :
    (∀ e ∈ out.broadcastEvents, e.isPrivate = false) ∧
    (∀ e ∈ out.privateEvents, e.isPrivate = true) := by
  unfold applyLeave at h
  cases h
  exact ⟨by simp [Event.isPrivate], by simp [Event.isPrivate]⟩

theorem applyVote_events (s : Session) (i v : String) (out : CmdOutcome)
    (h : applyVote s i v = Except.ok out) :
    (∀ e ∈ out.broadcastEvents, e.isPrivate = false) ∧
    (∀ e ∈ out.privateEvents, e.isPrivate = true) := by
  unfold applyVote at h
  split at h
  · exact absurd h (by simp)
  · split at h
    · exact absurd h (by simp)
    · split at h
      · exact absurd h (by simp)
      · split at h
        · exact absurd h (by simp)
        · split at h <;>
            (cases h; exact ⟨by simp [Event.isPrivate], by simp [Event.isPrivate]⟩)

theorem applyReveal_events (s : Session) (i : String) (out : CmdOutcome)
    (h : applyReveal s i = Except.ok out) :
    (∀ e ∈ out.broadcastEvents, e.isPrivate = false) ∧
    (∀ e ∈ out.privateEvents, e.isPrivate = true) := by
  unfold applyReveal at h
  split at h
  · exact absurd h (by simp)
  · split at h
    · exact absurd h (by simp)
    · split at h
      · exact absurd h (by simp)
      · cases h
        exact ⟨by simp [Event.isPrivate], by simp [Event.isPrivate]⟩

theorem applyActivate_events (s : Session) (i wid : String) (out : CmdOutcome)
    (h : applyActivate s i wid = Except.ok out) :
    (∀ e ∈ out.broadcastEvents, e.isPrivate = false) ∧
    (∀ e ∈ out.privateEvents, e.isPrivate = true) := by
  unfold applyActivate at h
  split at h
  · exact absurd h (by simp)
  · split at h
    · exact absurd h (by simp)
    · cases h
      exact ⟨by simp [Event.isPrivate], by simp [Event.isPrivate]⟩

theorem applyFinalize_events (s : Session) (i pts : String) (out : CmdOutcome)
    (h : applyFinalize s i pts = Except.ok out) :
    (∀ e ∈ out.broadcastEvents, e.isPrivate = false) ∧
    (∀ e ∈ out.privateEvents, e.isPrivate = true) := by
  unfold applyFinalize at h
  split at h
  · exact absurd h (by simp)
  · split at h
    · exact absurd h (by simp)
    · split at h
      · exact absurd h (by simp)
      · cases h
        exact ⟨by simp [Event.isPrivate], by simp [Event.isPrivate]⟩

theorem applyChangeLeader_events (s : Session) (i nl : String) (out : CmdOutcome)
    (h : applyChangeLeader s i nl = Except.ok out) :
    (∀ e ∈ out.broadcastEvents, e.isPrivate = false) ∧
    (∀ e ∈ out.privateEvents, e.isPrivate = true) := by
  unfold applyChangeLeader at h
  split at h
  · exact absurd h (by simp)
  · split at h
    · exact absurd h (by simp)
    · split at h
      · exact absurd h (by simp)
      · cases h
        exact ⟨by simp [Event.isPrivate], by simp [Event.isPrivate]⟩

theorem applyCommand_events (s : Session) (cmd : Command) (out : CmdOutcome)
    (h : applyCommand s cmd = Except.ok out) :
    (∀ e ∈ out.broadcastEvents, e.isPrivate = false) ∧
    (∀ e ∈ out.privateEvents, e.isPrivate = true) := by
  cases cmd with
  | join i d => exact applyJoin_events s i d out h
  | leave i => exact applyLeave_events s i out h
  | vote i v => exact applyVote_events s i v out h
  | reveal i => exact applyReveal_events s i out h
  | activateWorkItem i wid => exact applyActivate_events s i wid out h
  | finalizePoints i pts => exact applyFinalize_events s i pts out h
  | changeLeader i nl => exact applyChangeLeader_events s i nl out h

theorem processQueue_state (conns : List String) :
    ∀ (q : List (String × Command)) (s : Session),
      (processQueue conns s q).1 = runCmds s (q.map Prod.snd) := by
  intro q
  induction q with
  | nil => intro s; rfl
  | cons sc rest ih =>
    intro s
    obtain ⟨sub, cmd⟩ := sc
    show (processQueue conns (processOne conns sub s cmd).1 rest).1 = _
    rw [ih]
    have hstep : (processOne conns sub s cmd).1 = stepState s cmd := by
      unfold processOne stepState
      cases applyCommand s cmd <;> rfl
    rw [hstep]
    rfl

theorem processQueue_append (conns : List String) :
    ∀ (q1 q2 : List (String × Command)) (s : Session),
      (processQueue conns s (q1 ++ q2)).2 =
        (processQueue conns s q1).2 ++
          (processQueue conns (processQueue conns s q1).1 q2).2 := by
  intro q1
  induction q1 with
  | nil => intro q2 s; rfl
  | cons sc rest ih =>
    intro q2 s
    obtain ⟨sub, cmd⟩ := sc
    show ((processOne conns sub s cmd).2 ++
        (processQueue conns (processOne conns sub s cmd).1 (rest ++ q2)).2) = _
    rw [ih]
    simp [processQueue]

theorem observedLog_processQueue (conns : List String) (c : String)
    (hn : conns.Nodup) (hc : c ∈ conns) :
    ∀ (q : List (String × Command)) (s : Session),
      observedLog c (processQueue conns s q).2 = applyLog s q := by
  intro q
  induction q with
  | nil => intro s; rfl
  | cons sc rest ih =>
    intro s
    obtain ⟨sub, cmd⟩ := sc
    show observedLog c ((processOne conns sub s cmd).2 ++
        (processQueue conns (processOne conns sub s cmd).1 rest).2) = _
    rw [observedLog_append]
    cases hcmd : applyCommand s cmd with
    | error e =>
      have h1 : processOne conns sub s cmd = (s, [⟨sub, Event.errorNotice e⟩]) := by
        unfold processOne
        rw [hcmd]
      rw [h1]
      have h2 : observedLog c [(⟨sub, Event.errorNotice e⟩ : Delivery)] = [] := by
        simp [observedLog, Event.isPrivate]
      rw [h2, ih]
      simp [applyLog, hcmd]
    | ok out =>
      have hev := applyCommand_events s cmd out hcmd
      have h1 : processOne conns sub s cmd =
          (out.next, broadcastAll conns out.broadcastEvents ++
            out.privateEvents.map (fun e => ⟨sub, e⟩)) := by
        unfold processOne
        rw [hcmd]
      rw [h1]
      rw [observedLog_append,
        observedLog_broadcastAll conns c hn hc out.broadcastEvents hev.1,
        observedLog_private c sub out.privateEvents hev.2, ih]
      simp [applyLog, hcmd]

/-- C2: in the session's single-worker queue model, every registered
connection observes the same broadcast event log, the final state is the
in-order sequential fold of the commands, and all deliveries of an earlier
queue segment precede every delivery of a later one (events of one command are
broadcast before the next command is processed). -/
theorem session_total_order (conns : List String) (s : Session)
    (q q1 q2 : List (String × Command)) (c1 c2 : String)
    (hn : conns.Nodup) (h1 : c1 ∈ conns) (h2 : c2 ∈ conns) :
    observedLog c1 (processQueue conns s q).2 = applyLog s q ∧
    observedLog c1 (processQueue conns s q).2 =
      observedLog c2 (processQueue conns s q).2 ∧
    (processQueue conns s q).1 = runCmds s (q.map Prod.snd) ∧
    (processQueue conns s (q1 ++ q2)).2 =
      (processQueue conns s q1).2 ++
        (processQueue conns (processQueue conns s q1).1 q2).2 := by
  refine ⟨observedLog_processQueue conns c1 hn h1 q s, ?_,
    processQueue_state conns q s, processQueue_append conns q1 q2 s⟩
  rw [observedLog_processQueue conns c1 hn h1 q s,
    observedLog_processQueue conns c2 hn h2 q s]

theorem session_total_order_witness :
    observedLog "c1" (processQueue ["c1", "c2"] demoOpen
      [("c1", Command.vote "a" "3"), ("c2", Command.reveal "f")]).2 =
      applyLog demoOpen
        [("c1", Command.vote "a" "3"), ("c2", Command.reveal "f")] ∧
    observedLog "c1" (processQueue ["c1", "c2"] demoOpen
      [("c1", Command.vote "a" "3"), ("c2", Command.reveal "f")]).2 =
      observedLog "c2" (processQueue ["c1", "c2"] demoOpen
        [("c1", Command.vote "a" "3"), ("c2", Command.reveal "f")]).2 ∧
    (processQueue ["c1", "c2"] demoOpen
      [("c1", Command.vote "a" "3"), ("c2", Command.reveal "f")]).1 =
      runCmds demoOpen
        ([("c1", Command.vote "a" "3"), ("c2", Command.reveal "f")].map Prod.snd) ∧
    (processQueue ["c1", "c2"] demoOpen
      ([("c1", Command.vote "a" "3")] ++ [("c2", Command.reveal "f")])).2 =
      (processQueue ["c1", "c2"] demoOpen [("c1", Command.vote "a" "3")]).2 ++
        (processQueue ["c1", "c2"]
          (processQueue ["c1", "c2"] demoOpen [("c1", Command.vote "a" "3")]).1
          [("c2", Command.reveal "f")]).2 :=
  session_total_order ["c1", "c2"] demoOpen
    [("c1", Command.vote "a" "3"), ("c2", Command.reveal "f")]
    [("c1", Command.vote "a" "3")] [("c2", Command.reveal "f")]
    "c1" "c2" (by decide) (by decide) (by decide)

theorem at_most_one_active_witness :
    (runCmds demoOpen
      [Command.vote "a" "3", Command.reveal "f",
       Command.activateWorkItem "f" "w1"]).Inv ∧
    (runCmds demoOpen
      [Command.vote "a" "3", Command.reveal "f",
       Command.activateWorkItem "f" "w1"]).activeCount ≤ 1 :=
  at_most_one_active demoOpen
    [Command.vote "a" "3", Command.reveal "f", Command.activateWorkItem "f" "w1"]
    (by decide)

end Thunderdome
